import Mathlib

/-!
Verification of the scroll-driven navigation-bar state logic and the
scrollspy active-section tracker of the vs-components package.

The embedding below translates the two pieces of core logic:
  * the hide/show scroll handler and the background-blend transforms of
    `src/components/NavBar.tsx`;
  * the `useScrollspy` hook of `src/hooks/useScrollspy.ts`.
Scroll positions and rectangle offsets are embedded as rationals.
-/

namespace VSComponents

/-! ## ScrollState: the hide/show logic embedded from NavBar.tsx -/

/-- Configuration of the NavBar scroll behaviour: the props
`scrollThreshold` (default 0) and `scrollTransitionRange` (default 100). -/
structure ScrollConfig where
  scrollThreshold : ℚ
  scrollTransitionRange : ℚ
deriving DecidableEq

/-- One step of the scroll hide/show handler, translated from the
`useMotionValueEvent(scrollY, "change", ...)` callback in `NavBar.tsx`
(lines 151-163): given the current `isHidden` state, the previous scroll
position and the latest one, it returns the new `isHidden` state. -/
def scrollStep (cfg : ScrollConfig) (isHidden : Bool) (previous latest : ℚ) : Bool :=
  let diff := latest - previous
  let effectiveHideStartThreshold := cfg.scrollThreshold + cfg.scrollTransitionRange
  let scrollDirectionChangeSensitivity : ℚ := 10
  if latest > effectiveHideStartThreshold ∧ diff > scrollDirectionChangeSensitivity then
    true
  else if diff < -scrollDirectionChangeSensitivity ∨ latest ≤ effectiveHideStartThreshold then
    false
  else
    isHidden

/-- The hide/show rule exactly as the specification words it: transition to
hidden when `position > hideStartThreshold` and `diff > 10`; otherwise
transition to visible when `diff < -10` or `position <= hideStartThreshold`;
otherwise keep the state; the hide check is evaluated before the show
check. Written from the specification text, to be compared with
`scrollStep` which is translated from the source. -/
def scrollStepSpec (cfg : ScrollConfig) (hidden : Bool) (previousPosition position : ℚ) : Bool :=
  let diff := position - previousPosition
  let hideStartThreshold := cfg.scrollThreshold + cfg.scrollTransitionRange
  if position > hideStartThreshold ∧ diff > 10 then
    true
  else if diff < -10 ∨ position ≤ hideStartThreshold then
    false
  else
    hidden

/-- The initial value of the `isHidden` state: `useState(false)` in
`NavBar.tsx` line 126. It does not consult the scroll position. -/
def initialIsHidden : Bool := false

/-- Feeding a list of scroll samples through `scrollStep`, threading the
hidden state and the previous position (the motion value yields each new
position together with the one before it). -/
def runScroll (cfg : ScrollConfig) (hidden : Bool) (prev : ℚ) : List ℚ → Bool
  | [] => hidden
  | p :: ps => runScroll cfg (scrollStep cfg hidden prev p) p ps

/-! ## Background blend progress

`NavBar.tsx` lines 166-181 feed `scrollY` through framer-motion
`useTransform` over the input range
`[scrollThreshold, scrollThreshold + scrollTransitionRange]` with
`clamp: true`; the `shadowOpacity` transform has output range `[0, 1]`,
so it is literally the blend progress. -/

/-- Modelled from the spec: the interpolation engine (framer-motion
`useTransform`) is an external library, out of scope for the repository;
its clamped linear mapping is modelled from the formula the specification
gives (`clamp((position - scrollThreshold) / scrollTransitionRange, 0, 1)`
composed with a linear output map). The input range endpoints and the
`clamp: true` flag are taken from the source. -/
def useTransformClamped (inLo inHi outLo outHi v : ℚ) : ℚ :=
  let progress := (v - inLo) / (inHi - inLo)
  let clamped := max 0 (min 1 progress)
  outLo + clamped * (outHi - outLo)

/-- The blend progress driving the interpolated visual values: the
`useTransform` of `scrollY` over
`scrollRangeForBgTransition = [scrollThreshold, scrollThreshold + scrollTransitionRange]`
onto `[0, 1]` (the `shadowOpacity` transform of `NavBar.tsx` line 181). -/
def blendProgress (cfg : ScrollConfig) (position : ℚ) : ℚ :=
  useTransformClamped cfg.scrollThreshold
    (cfg.scrollThreshold + cfg.scrollTransitionRange) 0 1 position

/-! ## ActiveSectionTracker: the useScrollspy hook embedded from useScrollspy.ts -/

/-- One IntersectionObserver entry as the observer callback consumes it:
the target element id, the `isIntersecting` flag, and the top edge of its
`boundingClientRect`. -/
structure Entry where
  id : String
  isIntersecting : Bool
  top : ℚ
deriving DecidableEq

/-- The first entry of minimal `top` among `e :: l`: the head of the list
after the ascending sort by `boundingClientRect.top` that the source
performs (`intersectingEntries.sort((a, b) => a.boundingClientRect.top -
b.boundingClientRect.top)` is a stable sort keeping the original order of
ties, so the head of the sorted list is the earliest minimal entry). -/
def firstMinByTop (e : Entry) : List Entry → Entry
  | [] => e
  | x :: xs => firstMinByTop (if x.top < e.top then x else e) xs

/-- The IntersectionObserver callback of `useScrollspy.ts` (lines 102-118):
filter the batch for intersecting entries; when some intersect, the active
id becomes the id of the topmost of them (sort by top, take index 0); when
none intersect, the active id is left as it is (sticky). -/
def observerCallback (entries : List Entry) (activeId : Option String) : Option String :=
  match entries.filter (fun e => e.isIntersecting) with
  | [] => activeId
  | e :: rest => some (firstMinByTop e rest).id

/-- The observation-session state of the hook: the `activeId` React state
and the ids of the elements a live observer subscription observes (empty
when there is no live subscription). -/
structure SpyState where
  activeId : Option String
  observed : List String
deriving DecidableEq

/-- The body of the `try` block of `useScrollspy.ts` (lines 120-129):
constructing the IntersectionObserver and observing every resolved
element. `ctorThrows` embeds whether the construction throws; on success
the subscription observes `observed` and the active id is untouched. -/
def tryObserve (ctorThrows : Bool) (observed : List String) (activeId : Option String) :
    Except String SpyState :=
  if ctorThrows then Except.error "Failed to create or use IntersectionObserver"
  else Except.ok ⟨activeId, observed⟩

/-- The effect body of `useScrollspy` (lines 66-133), run at mount and on
every change of the dependency keys. `env` is whether `window` and
`document` exist: the guard at line 68 returns with the state untouched
when they do not. Otherwise the previous observer is disconnected, the
element map is rebuilt by resolving each of `itemIds` against the document
(`dom` is the list of ids `document.getElementById` resolves; unresolved
ids are skipped); when nothing resolves, `activeId` is reset to `null`
with no subscription; otherwise observer construction is attempted and a
thrown exception is caught, logged and turned into the same null,
no-subscription state (lines 130-133). -/
def runEffect (env ctorThrows : Bool) (dom itemIds : List String) (st : SpyState) : SpyState :=
  if env = false then st
  else
    let observed := itemIds.filter (fun s => dom.contains s)
    if observed.isEmpty then ⟨none, []⟩
    else
      match tryObserve ctorThrows observed st.activeId with
      | Except.ok st' => st'
      | Except.error _ => ⟨none, []⟩

/-- A JavaScript `threshold` option value: one number or an array of
numbers (`number | number[]` in `ScrollspyOptions`). -/
inductive JsThreshold
  | single : ℚ → JsThreshold
  | array : List ℚ → JsThreshold
deriving DecidableEq

/-- The `ScrollspyOptions` object of `useScrollspy.ts`: optional
`rootMargin` and optional `threshold`. -/
structure SpyOptions where
  rootMargin : Option String
  threshold : Option JsThreshold
deriving DecidableEq

/-- JSON text of a threshold option value. -/
def stringifyThreshold : JsThreshold → String
  | JsThreshold.single q => toString q
  | JsThreshold.array qs => "[" ++ String.intercalate "," (qs.map toString) ++ "]"

/-- Modelled from the spec: the `JSON.stringify` builtin the hook calls on
line 64 is not repository code; it is modelled here on option objects as
the JSON text with the object keys in declaration order and absent fields
skipped, and the `undefined` result for an absent options argument. -/
def stringifyOptions : Option SpyOptions → String
  | none => "undefined"
  | some o =>
    let fields :=
      (match o.rootMargin with
       | some rm => ["\x22rootMargin\x22:\x22" ++ rm ++ "\x22"]
       | none => []) ++
      (match o.threshold with
       | some th => ["\x22threshold\x22:" ++ stringifyThreshold th]
       | none => [])
    "\x7b" ++ String.intercalate "," fields ++ "\x7d"

/-- The dependency keys of the hook effect, `itemIds.join(",")` and
`JSON.stringify(options)` (lines 64 and 141-143): the effect re-runs
(tears down and rebuilds the subscription) exactly when this pair
changes. -/
def depKey (itemIds : List String) (options : Option SpyOptions) : String × String :=
  (String.intercalate "," itemIds, stringifyOptions options)

/-- Transition system of the tracker, with the current identifier list as
part of the state. `mount` is the initial React state (`useState(null)`,
nothing observed) for whatever identifier list the host passes; `reinit`
runs the effect body, possibly with a new identifier list (the dependency
keys changed) and a possibly changed document; `batch` delivers an
observer batch, whose entries can only concern observed elements. -/
inductive SpyReach : List String × SpyState → Prop
  | mount (ids : List String) : SpyReach (ids, ⟨none, []⟩)
  | reinit (env ctorThrows : Bool) (dom newIds : List String)
      {p : List String × SpyState} :
      SpyReach p → SpyReach (newIds, runEffect env ctorThrows dom newIds p.2)
  | batch (entries : List Entry) {p : List String × SpyState}
      (h : ∀ e ∈ entries, e.id ∈ p.2.observed) :
      SpyReach p → SpyReach (p.1, ⟨observerCallback entries p.2.activeId, p.2.observed⟩)

/-- The invariant the specification claims for `ActiveId`: null or a
member of the current identifier list. -/
def ActiveIdInvariant (p : List String × SpyState) : Prop :=
  p.2.activeId = none ∨ ∃ a, p.2.activeId = some a ∧ a ∈ p.1

/-- Reachable session states of a tracker whose identifier list is the
same at every effect run (the document and the observer construction
outcome may still differ between runs). -/
inductive SpyReachAt (ids : List String) : SpyState → Prop
  | mount : SpyReachAt ids ⟨none, []⟩
  | reinit (env ctorThrows : Bool) (dom : List String) {st : SpyState} :
      SpyReachAt ids st → SpyReachAt ids (runEffect env ctorThrows dom ids st)
  | batch (entries : List Entry) {st : SpyState}
      (h : ∀ e ∈ entries, e.id ∈ st.observed) :
      SpyReachAt ids st → SpyReachAt ids ⟨observerCallback entries st.activeId, st.observed⟩

/-! ## Helper lemmas -/

theorem firstMinByTop_mem (e : Entry) (l : List Entry) :
    firstMinByTop e l = e ∨ firstMinByTop e l ∈ l := by
  induction l generalizing e with
  | nil => left; rfl
  | cons x xs ih =>
    simp only [firstMinByTop]
    rcases ih (if x.top < e.top then x else e) with h1 | h1
    · rw [h1]
      by_cases hc : x.top < e.top
      · right; simp [hc]
      · left; simp [hc]
    · right; exact List.mem_cons_of_mem x h1

theorem firstMinByTop_le (e : Entry) (l : List Entry) :
    (firstMinByTop e l).top ≤ e.top ∧ ∀ x ∈ l, (firstMinByTop e l).top ≤ x.top := by
  induction l generalizing e with
  | nil => exact ⟨le_refl _, by simp⟩
  | cons x xs ih =>
    simp only [firstMinByTop]
    obtain ⟨h1, h2⟩ := ih (if x.top < e.top then x else e)
    have he : (if x.top < e.top then x else e).top ≤ e.top := by
      by_cases hc : x.top < e.top
      · rw [if_pos hc]
        exact hc.le
      · rw [if_neg hc]
    have hx : (if x.top < e.top then x else e).top ≤ x.top := by
      by_cases hc : x.top < e.top
      · rw [if_pos hc]
      · rw [if_neg hc]
        exact le_of_not_lt hc
    refine ⟨h1.trans he, ?_⟩
    intro y hy
    rcases List.mem_cons.mp hy with rfl | hy2
    · exact h1.trans hx
    · exact h2 y hy2

theorem observerCallback_cases (entries : List Entry) (prev : Option String) :
    observerCallback entries prev = prev ∨
    ∃ e, e ∈ entries ∧ observerCallback entries prev = some e.id := by
  rcases hfe : entries.filter (fun e => e.isIntersecting) with _ | ⟨e, rest⟩
  · left
    simp only [observerCallback, hfe]
  · right
    refine ⟨firstMinByTop e rest, ?_, by simp only [observerCallback, hfe]⟩
    have hmem : firstMinByTop e rest ∈ e :: rest := by
      rcases firstMinByTop_mem e rest with h1 | h1
      · rw [h1]; exact List.mem_cons_self e rest
      · exact List.mem_cons_of_mem e h1
    rw [← hfe] at hmem
    exact List.mem_of_mem_filter hmem

theorem runEffect_env_absent (ctorThrows : Bool) (dom itemIds : List String)
    (st : SpyState) : runEffect false ctorThrows dom itemIds st = st := rfl

theorem runEffect_result (ctorThrows : Bool) (dom itemIds : List String) (st : SpyState) :
    runEffect true ctorThrows dom itemIds st = ⟨none, []⟩ ∨
    runEffect true ctorThrows dom itemIds st =
      ⟨st.activeId, itemIds.filter (fun s => dom.contains s)⟩ := by
  simp only [runEffect]
  split
  next h => exact absurd h (by simp)
  next =>
    split
    next => exact Or.inl rfl
    next =>
      cases ctorThrows
      · exact Or.inr rfl
      · exact Or.inl rfl

theorem runEffect_throw (dom itemIds : List String) (st : SpyState) :
    runEffect true true dom itemIds st = ⟨none, []⟩ := by
  simp only [runEffect]
  split
  next h => exact absurd h (by simp)
  next =>
    split
    next => rfl
    next => rfl

/-! ## The claims -/

/-- C1: the hide/show logic is exactly the 2-state step function the
specification describes: from any state it transitions to hidden exactly
when `position > scrollThreshold + scrollTransitionRange` and `diff > 10`;
otherwise it transitions to visible exactly when `diff < -10` or
`position <= scrollThreshold + scrollTransitionRange`; for every other
sample the state is unchanged; and the hide check is evaluated before the
show check (`scrollStepSpec` encodes exactly that rule, in that order). -/
theorem scrollStep_matches_spec (cfg : ScrollConfig) (hidden : Bool)
    (previousPosition position : ℚ) :
    scrollStep cfg hidden previousPosition position =
      scrollStepSpec cfg hidden previousPosition position := rfl

/-- C2, counterexample: with `scrollThreshold = 0`,
`scrollTransitionRange = 100` and initial state visible, the position
sequence `[50, 120]` does NOT leave the state visible at position 120 as
the claim asserts: at that sample `120 > 100` and `diff = 70 > 10`, so the
step function transitions to hidden. -/
theorem hideSequence_claim_false :
    ¬ (runScroll ⟨0, 100⟩ false 0 [50, 120] = false) := by
  norm_num [runScroll, scrollStep]

/-- C2, amended: with `scrollThreshold = 0` and `scrollTransitionRange =
100`, starting visible, the sequence `[50, 120, 135]` transitions to
hidden already at position 120 (and is still hidden after 135), and the
sequence `[150, 170]` also ends hidden. -/
theorem hideSequence_transitions_hidden :
    runScroll ⟨0, 100⟩ false 0 [50, 120] = true ∧
    runScroll ⟨0, 100⟩ false 0 [50, 120, 135] = true ∧
    runScroll ⟨0, 100⟩ false 0 [150, 170] = true := by
  norm_num [runScroll, scrollStep]

/-- C3: for a positive transition range, the blend progress equals
`clamp((position - scrollThreshold) / scrollTransitionRange, 0, 1)`, is
monotonically non-decreasing in the position, is exactly 0 for every
position at or below `scrollThreshold`, exactly 1 for every position at or
beyond `scrollThreshold + scrollTransitionRange`, and equals `1/2` at
position 50 when `scrollThreshold = 0` and `scrollTransitionRange = 100`. -/
theorem blendProgress_clamp (cfg : ScrollConfig)
    (hr : 0 < cfg.scrollTransitionRange) :
    (∀ p, blendProgress cfg p =
      max 0 (min 1 ((p - cfg.scrollThreshold) / cfg.scrollTransitionRange))) ∧
    (∀ p q, p ≤ q → blendProgress cfg p ≤ blendProgress cfg q) ∧
    (∀ p, p ≤ cfg.scrollThreshold → blendProgress cfg p = 0) ∧
    (∀ p, cfg.scrollThreshold + cfg.scrollTransitionRange ≤ p →
      blendProgress cfg p = 1) ∧
    blendProgress ⟨0, 100⟩ 50 = 1 / 2 := by
  obtain ⟨t, r⟩ := cfg
  simp only at hr
  have hform : ∀ p, blendProgress ⟨t, r⟩ p = max 0 (min 1 ((p - t) / r)) := by
    intro p
    simp [blendProgress, useTransformClamped, add_sub_cancel_left]
  refine ⟨hform, ?_, ?_, ?_, ?_⟩
  · intro p q hpq
    rw [hform, hform]
    gcongr
  · intro p hp
    have hp' : p ≤ t := hp
    rw [hform]
    have h1 : (p - t) / r ≤ 0 := by
      rw [div_nonpos_iff]
      right
      constructor <;> linarith
    rw [min_eq_right (h1.trans zero_le_one), max_eq_left h1]
  · intro p hp
    have hp' : t + r ≤ p := hp
    rw [hform]
    have h1 : (1 : ℚ) ≤ (p - t) / r := (one_le_div hr).mpr (by linarith)
    rw [min_eq_left h1, max_eq_right zero_le_one]
  · norm_num [blendProgress, useTransformClamped]

/-- Witness for C3 at `scrollThreshold = 0`, `scrollTransitionRange = 100`. -/
theorem blendProgress_clamp_witness :
    (0 : ℚ) < 100 ∧
    ((∀ p : ℚ, blendProgress ⟨0, 100⟩ p = max 0 (min 1 ((p - 0) / 100))) ∧
     (∀ p q : ℚ, p ≤ q → blendProgress ⟨0, 100⟩ p ≤ blendProgress ⟨0, 100⟩ q) ∧
     (∀ p : ℚ, p ≤ 0 → blendProgress ⟨0, 100⟩ p = 0) ∧
     (∀ p : ℚ, (0 : ℚ) + 100 ≤ p → blendProgress ⟨0, 100⟩ p = 1) ∧
     blendProgress ⟨0, 100⟩ 50 = 1 / 2) :=
  ⟨by norm_num, blendProgress_clamp ⟨0, 100⟩ (by norm_num)⟩

/-- C4: whenever an observer batch has a non-empty set of intersecting
entries, the new active id is the id of an intersecting entry whose
bounding-rectangle top edge is least among all intersecting entries of the
batch (so a single intersecting entry is selected, and of tops 5 and 40
the entry at 5 wins). -/
theorem observerCallback_selects_topmost (entries : List Entry) (prev : Option String)
    (h : entries.filter (fun e => e.isIntersecting) ≠ []) :
    ∃ e, e ∈ entries.filter (fun e => e.isIntersecting) ∧
      observerCallback entries prev = some e.id ∧
      ∀ e', e' ∈ entries.filter (fun e => e.isIntersecting) → e.top ≤ e'.top := by
  rcases hfe : entries.filter (fun e => e.isIntersecting) with _ | ⟨e, rest⟩
  · exact absurd hfe h
  · refine ⟨firstMinByTop e rest, ?_, ?_, ?_⟩
    · rw [hfe]
      rcases firstMinByTop_mem e rest with h1 | h1
      · rw [h1]; exact List.mem_cons_self e rest
      · exact List.mem_cons_of_mem e h1
    · simp only [observerCallback, hfe]
    · intro y hy
      rw [hfe] at hy
      obtain ⟨h1, h2⟩ := firstMinByTop_le e rest
      rcases List.mem_cons.mp hy with rfl | hy2
      · exact h1
      · exact h2 y hy2

/-- Witness for C4: two intersecting entries with tops 40 and 5; the
selected entry is the one at top 5 (here listed second, so the selection
is not positional). -/
theorem observerCallback_selects_topmost_witness :
    ([Entry.mk "services" true 40, Entry.mk "about" true 5] ≠ ([] : List Entry)) ∧
    ∃ e, e ∈ [Entry.mk "services" true 40, Entry.mk "about" true 5] ∧
      observerCallback [Entry.mk "services" true 40, Entry.mk "about" true 5] none = some e.id ∧
      ∀ e', e' ∈ [Entry.mk "services" true 40, Entry.mk "about" true 5] → e.top ≤ e'.top :=
  ⟨by simp, observerCallback_selects_topmost
    [Entry.mk "services" true 40, Entry.mk "about" true 5] none (by simp [List.filter])⟩

/-- C5: a batch with no intersecting entry leaves a non-null active id
exactly as it was (sticky-last-active): the callback returns the previous
value unchanged. -/
theorem emptyBatch_keeps_activeId (entries : List Entry) (a : String)
    (h : entries.filter (fun e => e.isIntersecting) = []) :
    observerCallback entries (some a) = some a := by
  simp only [observerCallback, h]

/-- Witness for C5: active id "about" survives a non-intersecting batch. -/
theorem emptyBatch_keeps_activeId_witness :
    ([Entry.mk "about" false 5].filter (fun e => e.isIntersecting) = []) ∧
    observerCallback [Entry.mk "about" false 5] (some "about") = some "about" :=
  ⟨rfl, emptyBatch_keeps_activeId [Entry.mk "about" false 5] "about" rfl⟩

/-- C6: a (re)initialization in which no identifier resolves to an
existing element — in particular an empty identifier list — resets the
active id to null, overriding any previous sticky value, and creates no
observation subscription. -/
theorem noneResolved_resets_activeId (ctorThrows : Bool) (dom itemIds : List String)
    (st : SpyState) (h : itemIds.filter (fun s => dom.contains s) = []) :
    runEffect true ctorThrows dom itemIds st = ⟨none, []⟩ := by
  simp only [runEffect]
  split
  next hf => exact absurd hf (by simp)
  next =>
    split
    next => rfl
    next hne => exact absurd (by rw [h]; rfl) hne

/-- Witness for C6: re-initializing with an empty identifier list clears a
previously sticky active id. -/
theorem noneResolved_resets_activeId_witness :
    (([] : List String).filter (fun s => (["about"] : List String).contains s) = []) ∧
    runEffect true false ["about"] [] ⟨some "about", ["about"]⟩ = ⟨none, []⟩ :=
  ⟨rfl, noneResolved_resets_activeId false ["about"] [] ⟨some "about", ["about"]⟩ rfl⟩

/-- C7, counterexample: the claimed invariant fails across a
re-initialization that changes the identifier set. Trace: mount with ids
`["about"]`; the effect resolves and observes "about"; a batch makes
"about" active; re-initializing with ids `["services"]` (which resolves,
so the effect does not reset the active id) reaches a state whose active
id "about" is not in the current identifier set. -/
theorem activeId_escapes_new_idSet :
    SpyReach (["services"], ⟨some "about", ["services"]⟩) ∧
    ¬ ActiveIdInvariant (["services"], ⟨some "about", ["services"]⟩) := by
  constructor
  · have s0 : SpyReach (["about"], (⟨none, []⟩ : SpyState)) := SpyReach.mount ["about"]
    have s1 : SpyReach (["about"], (⟨none, ["about"]⟩ : SpyState)) :=
      SpyReach.reinit true false ["about", "services"] ["about"] s0
    have s2 : SpyReach (["about"], (⟨some "about", ["about"]⟩ : SpyState)) :=
      SpyReach.batch [Entry.mk "about" true 0] (by simp) s1
    exact SpyReach.reinit true false ["about", "services"] ["services"] s2
  · intro hinv
    rcases hinv with h1 | ⟨a, ha, hmem⟩
    · exact Option.noConfusion h1
    · have haa : a = "about" := (Option.some_inj.mp ha).symm
      subst haa
      simp at hmem

/-- C7, amended: in every reachable state of a tracker whose identifier
list is the same at every re-initialization, the observed ids are a
subset of the identifier list and the active id is null or a member of
the identifier list. (Across a re-initialization that changes the list
while at least one identifier resolves, the active id can transiently
hold an identifier of the previous list until the next batch, as the
counterexample shows.) -/
theorem activeId_in_fixed_idSet (ids : List String) (st : SpyState)
    (h : SpyReachAt ids st) :
    (∀ x ∈ st.observed, x ∈ ids) ∧
    (st.activeId = none ∨ ∃ a, st.activeId = some a ∧ a ∈ ids) := by
  induction h with
  | mount => exact ⟨by simp, Or.inl rfl⟩
  | reinit env ctorThrows dom hst ih =>
    cases env
    · rw [runEffect_env_absent]
      exact ih
    · rcases runEffect_result ctorThrows dom ids _ with hr | hr
      · rw [hr]
        exact ⟨by simp, Or.inl rfl⟩
      · rw [hr]
        exact ⟨fun x hx => List.mem_of_mem_filter hx, ih.2⟩
  | batch entries h' hst ih =>
    refine ⟨ih.1, ?_⟩
    rcases observerCallback_cases entries _ with hc | ⟨e, he, hc⟩
    · rw [hc]
      exact ih.2
    · rw [hc]
      exact Or.inr ⟨e.id, rfl, ih.1 e.id (h' e he)⟩

/-- Witness for the amended C7: a mount, one effect run and one batch with
the fixed identifier list `["about"]`. -/
theorem activeId_in_fixed_idSet_witness :
    SpyReachAt ["about"] ⟨some "about", ["about"]⟩ ∧
    ((∀ x ∈ (["about"] : List String), x ∈ (["about"] : List String)) ∧
     ((some "about" : Option String) = none ∨
      ∃ a, (some "about" : Option String) = some a ∧ a ∈ (["about"] : List String))) := by
  have s1 : SpyReachAt ["about"] ⟨none, ["about"]⟩ :=
    SpyReachAt.reinit true false ["about"] SpyReachAt.mount
  have s2 : SpyReachAt ["about"] ⟨some "about", ["about"]⟩ :=
    SpyReachAt.batch [Entry.mk "about" true 0] (by simp) s1
  exact ⟨s2, activeId_in_fixed_idSet ["about"] _ s2⟩

/-- C8, counterexample: the dependency keys do NOT change for every
content change: the identifier lists `["a,b"]` and `["a", "b"]` differ in
content but have the same comma-join, so they yield the same dependency
keys and no re-initialization. -/
theorem depKey_misses_content_change :
    depKey ["a,b"] none = depKey ["a", "b"] none ∧
    (["a,b"] : List String) ≠ ["a", "b"] := by
  constructor
  · rfl
  · decide

/-- C8, amended: identifier lists and options of equal content always
produce equal dependency keys (no needless re-initialization), but the
converse fails: distinct identifier lists with equal comma-joins, such as
`["a,b"]` and `["a", "b"]`, also produce equal keys, so such a content
change does not trigger re-initialization. -/
theorem depKey_equal_content_no_reinit (itemIds newIds : List String)
    (options newOptions : Option SpyOptions)
    (h1 : itemIds = newIds) (h2 : options = newOptions) :
    depKey itemIds options = depKey newIds newOptions ∧
    depKey ["a,b"] none = depKey ["a", "b"] none := by
  subst h1
  subst h2
  exact ⟨rfl, rfl⟩

/-- Witness for the amended C8. -/
theorem depKey_equal_content_no_reinit_witness :
    ((["about"] : List String) = ["about"]) ∧ ((none : Option SpyOptions) = none) ∧
    (depKey ["about"] none = depKey ["about"] none ∧
     depKey ["a,b"] none = depKey ["a", "b"] none) :=
  ⟨rfl, rfl, depKey_equal_content_no_reinit ["about"] ["about"] none none rfl rfl⟩

/-- C9: when the observation capability is absent the effect does nothing
(so from the mount state the active id stays null and no observation
happens), and when observer construction throws, the exception is caught
inside the effect (the embedded effect is a total function whose `catch`
branch is explicit) and the result is the null, no-subscription state. -/
theorem scrollspy_degrades_to_null (ctorThrows : Bool) (dom itemIds : List String)
    (st : SpyState) :
    runEffect false ctorThrows dom itemIds st = st ∧
    (runEffect true true dom itemIds st).activeId = none ∧
    (runEffect true true dom itemIds st).observed = [] := by
  refine ⟨rfl, ?_, ?_⟩
  · rw [runEffect_throw]
  · rw [runEffect_throw]

/-- C10: the hide/show state is constructed visible (`useState(false)`)
whatever the scroll position is at mount, and stays visible until a
scroll-change notification is processed: with no scroll events, even a
mount position beyond `scrollThreshold + scrollTransitionRange` leaves
the bar visible. -/
theorem navbar_mounts_visible (cfg : ScrollConfig) (mountPosition : ℚ)
    (h : cfg.scrollThreshold + cfg.scrollTransitionRange < mountPosition) :
    initialIsHidden = false ∧
    runScroll cfg initialIsHidden mountPosition [] = false := ⟨rfl, rfl⟩

/-- Witness for C10: mount position 500, thresholds 0 and 100. -/
theorem navbar_mounts_visible_witness :
    ((0 : ℚ) + 100 < 500) ∧
    (initialIsHidden = false ∧
     runScroll ⟨0, 100⟩ initialIsHidden 500 [] = false) :=
  ⟨by norm_num, navbar_mounts_visible ⟨0, 100⟩ 500 (by norm_num)⟩

end VSComponents
